import Mathlib

/-!
Verification of the tool-call orchestration loop from
`examples/reasoning_function_calls.ipynb`.

The notebook drives a multi-turn exchange with an external inference
endpoint: `invoke_functions_from_response` executes the function calls
found in a response, and the manual conversation loop feeds the results
(and the reasoning items) back to the endpoint until a response contains
no function calls.

The embedding below translates those cells.  Items of `response.output`
(duck-typed objects with a `type` field of `'function_call'`,
`'reasoning'` or `'message'`) become the inductive `ResponseItem`;
conversation entries (the dicts the notebook appends to `conversation`)
become `ConvItem`.  `json.loads` is an external collaborator and is
modelled by a caller-supplied `parse` function into an arbitrary
argument type `α`; a registered tool is a function from parsed
arguments to `Except String String`, where `Except.error e` models a
Python exception with message `e`.  The external endpoint
(`client.responses.create`) is modelled by an oracle from the current
conversation to either an API error or a response output list, and the
notebook's unbounded `while True` loop is given step-indexed semantics
by an explicit fuel argument: `outOfFuel` means the real loop is still
running after that many rounds.
-/

/-- An element of `response.output` as the notebook inspects it:
`rx.type` is one of `'function_call'` (with `name`, `call_id`,
`arguments`), `'reasoning'` (with a `summary`) or `'message'`
(carrying text). -/
inductive ResponseItem where
  | functionCall (name : String) (call_id : String) (arguments : String)
  | reasoning (summary : String)
  | message (text : String)
deriving DecidableEq, Repr

/-- A conversation entry: the dicts the notebook appends to
`conversation` (user messages, `rx.to_dict()` of response items, and
`function_call_output` dicts). -/
inductive ConvItem where
  | userMessage (content : String)
  | reasoning (summary : String)
  | functionCall (name : String) (call_id : String) (arguments : String)
  | functionCallOutput (call_id : String) (output : String)
  | message (text : String)
deriving DecidableEq, Repr

/-- The dict `{"type": "function_call_output", "call_id": ..., "output": ...}`
built by `invoke_functions_from_response`. -/
structure FunctionCallOutput where
  call_id : String
  output : String
deriving DecidableEq, Repr

def FunctionCallOutput.toConvItem (f : FunctionCallOutput) : ConvItem :=
  ConvItem.functionCallOutput f.call_id f.output

/-- A registered tool: `target_tool(**arguments)` either returns a string
or raises (modelled by `Except.error` with the exception message). -/
structure Tool (α : Type) where
  run : α → Except String String

/-- `rx.to_dict()`: a response item viewed as a conversation entry. -/
def ResponseItem.toConvItem : ResponseItem → ConvItem
  | .functionCall n c a => ConvItem.functionCall n c a
  | .reasoning s => ConvItem.reasoning s
  | .message t => ConvItem.message t

def ResponseItem.isFunctionCall : ResponseItem → Bool
  | .functionCall _ _ _ => true
  | _ => false

def ResponseItem.isReasoning : ResponseItem → Bool
  | .reasoning _ => true
  | _ => false

def ResponseItem.isMessage : ResponseItem → Bool
  | .message _ => true
  | _ => false

/-- `rx.call_id` (only meaningful on function calls). -/
def ResponseItem.callId : ResponseItem → String
  | .functionCall _ c _ => c
  | _ => ""

/-- `tool_mapping.get(name)`: dictionary lookup in the tool registry. -/
def lookupTool {α : Type} (tool_mapping : List (String × Tool α)) (name : String) :
    Option (Tool α) :=
  (tool_mapping.find? (fun p => p.1 == name)).map (fun p => p.2)

/-- `f"ERROR - No tool registered for function call: {name}"`. -/
def errNoTool (name : String) : String :=
  "ERROR - No tool registered for function call: " ++ name

/-- `f"Error executing function call: {name}: {e}"`. -/
def errExec (name e : String) : String :=
  "Error executing function call: " ++ name ++ ": " ++ e

/-- The `output` computed for one `function_call` item: look the tool up;
if present, run `json.loads` and the tool inside `try/except`, turning a
failure into the diagnostic string; if absent, the no-tool diagnostic. -/
def invokeItemOutput {α : Type} (parse : String → Except String α)
    (tool_mapping : List (String × Tool α)) (name arguments : String) : String :=
  match lookupTool tool_mapping name with
  | some tool =>
    match Except.bind (parse arguments) tool.run with
    | .ok s => s
    | .error e => errExec name e
  | none => errNoTool name

/-- `invoke_functions_from_response`: for every `function_call` item of
the response output, in order, append a `function_call_output` dict with
the same `call_id` and the computed output.  Other item types produce
nothing. -/
def invoke_functions_from_response {α : Type} (parse : String → Except String α)
    (tool_mapping : List (String × Tool α)) :
    List ResponseItem → List FunctionCallOutput
  | [] => []
  | ResponseItem.functionCall name call_id arguments :: rest =>
    ⟨call_id, invokeItemOutput parse tool_mapping name arguments⟩ ::
      invoke_functions_from_response parse tool_mapping rest
  | _ :: rest => invoke_functions_from_response parse tool_mapping rest

/-- The actual tool invocations one `function_call` item triggers: the
tool body runs exactly when the tool is registered and `json.loads`
succeeded (the notebook prints `Invoking tool: ...` at this point). -/
def invokeItemTrace {α : Type} (parse : String → Except String α)
    (tool_mapping : List (String × Tool α)) (name arguments : String) :
    List (String × α) :=
  match lookupTool tool_mapping name with
  | some _ =>
    match parse arguments with
    | .ok a => [(name, a)]
    | .error _ => []
  | none => []

/-- The sequence of tool invocations performed by
`invoke_functions_from_response`, in the order the loop performs them:
the item list is walked one element at a time, and each item's
invocations complete before the next item is examined. -/
def toolInvocations {α : Type} (parse : String → Except String α)
    (tool_mapping : List (String × Tool α)) :
    List ResponseItem → List (String × α)
  | [] => []
  | ResponseItem.functionCall name _ arguments :: rest =>
    invokeItemTrace parse tool_mapping name arguments ++
      toolInvocations parse tool_mapping rest
  | _ :: rest => toolInvocations parse tool_mapping rest

/-- `[rx.to_dict() for rx in response.output if rx.type == 'reasoning']`. -/
def reasoningConv (output : List ResponseItem) : List ConvItem :=
  (output.filter ResponseItem.isReasoning).map ResponseItem.toConvItem

/-- `[rx for rx in response.output if rx.type == 'function_call']`:
the round's tool-call requests. -/
def functionCallsOf (output : List ResponseItem) : List ResponseItem :=
  output.filter ResponseItem.isFunctionCall

/-- `[rx.to_dict() for rx in response.output if rx.type == 'function_call']`. -/
def functionCallConv (output : List ResponseItem) : List ConvItem :=
  (functionCallsOf output).map ResponseItem.toConvItem

/-- `[rx.to_dict() for rx in response.output if rx.type == 'message']`. -/
def messageConv (output : List ResponseItem) : List ConvItem :=
  (output.filter ResponseItem.isMessage).map ResponseItem.toConvItem

/-- `[val for pair in zip(xs, ys) for val in pair]`. -/
def interleavePairs : List (ConvItem × ConvItem) → List ConvItem
  | [] => []
  | p :: rest => p.1 :: p.2 :: interleavePairs rest

/-- Modelled from the spec: `response.output_text` of the external SDK,
"the concatenated assistant text" of the response's message items. -/
def outputText (output : List ResponseItem) : String :=
  String.join ((output.filter ResponseItem.isMessage).map
    (fun rx => match rx with | ResponseItem.message t => t | _ => ""))

/-- Everything one iteration of the manual conversation loop appends to
`conversation`: the reasoning items (if any), then — if there are
function calls — the requests interleaved with their outputs
(`zip(function_calls, function_outputs)` flattened), then the message
items (if any). -/
def roundItems {α : Type} (parse : String → Except String α)
    (tool_mapping : List (String × Tool α)) (output : List ResponseItem) :
    List ConvItem :=
  let reasoning := reasoningConv output
  let function_calls := functionCallConv output
  let messages := messageConv output
  let part1 := if reasoning.isEmpty then [] else reasoning
  let part2 :=
    if function_calls.isEmpty then []
    else
      let function_outputs :=
        (invoke_functions_from_response parse tool_mapping output).map
          FunctionCallOutput.toConvItem
      interleavePairs (function_calls.zip function_outputs)
  let part3 := if messages.isEmpty then [] else messages
  part1 ++ part2 ++ part3

/-- An error raised by `client.responses.create`: either the transport
failed or the endpoint returned a failure. -/
inductive ApiError where
  | transport (msg : String)
  | endpoint (msg : String)
deriving DecidableEq, Repr

/-- The external endpoint, as the loop sees it: from the submitted
conversation to either an exception or a response output list. -/
def Oracle (_α : Type) : Type :=
  List ConvItem → Except ApiError (List ResponseItem)

/-- Outcome of running the response loop under a finite round budget.
`outOfFuel` means the unbounded `while True` loop is still running after
that many rounds.  Each outcome records the conversation state reached
and the number of endpoint calls made. -/
inductive LoopOutcome where
  | done (conversation : List ConvItem) (finalText : String) (callsMade : Nat)
  | apiError (e : ApiError) (conversation : List ConvItem) (callsMade : Nat)
  | outOfFuel (conversation : List ConvItem) (callsMade : Nat)
deriving DecidableEq, Repr

def LoopOutcome.conversationOf : LoopOutcome → List ConvItem
  | .done conv _ _ => conv
  | .apiError _ conv _ => conv
  | .outOfFuel conv _ => conv

def LoopOutcome.isOutOfFuel : LoopOutcome → Bool
  | .outOfFuel _ _ => true
  | _ => false

/-- Account for one more `client.responses.create` call before the
recursive rounds. -/
def LoopOutcome.addCall : LoopOutcome → LoopOutcome
  | .done conv t n => .done conv t (n + 1)
  | .apiError e conv n => .apiError e conv (n + 1)
  | .outOfFuel conv n => .outOfFuel conv (n + 1)

/-- The notebook's inner `while True` response loop, step-indexed by
`fuel`: each round submits the conversation (`client.responses.create`
outside any `try`, so an error ends everything), extends the
conversation with the round's items, and breaks exactly when the
response contains no function calls, yielding `response.output_text`. -/
def responseLoop {α : Type} (parse : String → Except String α)
    (tool_mapping : List (String × Tool α)) (oracle : Oracle α) :
    Nat → List ConvItem → LoopOutcome
  | 0, conv => .outOfFuel conv 0
  | fuel + 1, conv =>
    match oracle conv with
    | .error e => .apiError e conv 1
    | .ok output =>
      let conv' := conv ++ roundItems parse tool_mapping output
      if (functionCallsOf output).isEmpty then
        .done conv' (outputText output) 1
      else
        (responseLoop parse tool_mapping oracle fuel conv').addCall

/-- `drive_conversation` for a single user message: append the message
and run the response loop. -/
def drive_conversation {α : Type} (parse : String → Except String α)
    (tool_mapping : List (String × Tool α)) (oracle : Oracle α)
    (fuel : Nat) (initialMessage : String) : LoopOutcome :=
  responseLoop parse tool_mapping oracle fuel
    [ConvItem.userMessage initialMessage]

/-- The outer loop over `user_messages`: append each as a user message
and run the inner response loop on the grown conversation; an API error
or an endless inner loop stops the session with the conversation as it
stood. -/
def runSession {α : Type} (parse : String → Except String α)
    (tool_mapping : List (String × Tool α)) (oracle : Oracle α)
    (fuel : Nat) : List ConvItem → List String → List ConvItem
  | conv, [] => conv
  | conv, msg :: rest =>
    match responseLoop parse tool_mapping oracle fuel
        (conv ++ [ConvItem.userMessage msg]) with
    | .done conv' _ _ => runSession parse tool_mapping oracle fuel conv' rest
    | .apiError _ conv' _ => conv'
    | .outOfFuel conv' _ => conv'

/-- The loop keeps running forever: under every finite round budget it
is still going. -/
def loopsForever {α : Type} (parse : String → Except String α)
    (tool_mapping : List (String × Tool α)) (oracle : Oracle α)
    (conv : List ConvItem) : Prop :=
  ∀ fuel, (responseLoop parse tool_mapping oracle fuel conv).isOutOfFuel = true

/-- `rx.name` (only meaningful on function calls). -/
def ResponseItem.nameOf : ResponseItem → String
  | .functionCall n _ _ => n
  | _ => ""

/-- `rx.arguments` (only meaningful on function calls). -/
def ResponseItem.argsOf : ResponseItem → String
  | .functionCall _ _ a => a
  | _ => ""

/-- Modelled from the spec: the invocations the spec's
`execute_pending_tool_calls` performs — one for each request of the
turn result whose tool is registered and whose arguments parse, in
exactly the order the requests appear. -/
def requestedInvocations {α : Type} (parse : String → Except String α)
    (tool_mapping : List (String × Tool α)) (output : List ResponseItem) :
    List (String × α) :=
  output.filterMap (fun item =>
    match item with
    | ResponseItem.functionCall nm _ args =>
      match lookupTool tool_mapping nm with
      | some _ => (parse args).toOption.map (fun a => (nm, a))
      | none => none
    | _ => none)

/-- Modelled from the spec: the round order the spec prescribes — all
reasoning steps, then all tool-call requests, then the paired results
in request order, then the assistant messages. -/
def specRoundOrder {α : Type} (parse : String → Except String α)
    (tool_mapping : List (String × Tool α)) (output : List ResponseItem) :
    List ConvItem :=
  reasoningConv output ++ functionCallConv output ++
    (invoke_functions_from_response parse tool_mapping output).map
      FunctionCallOutput.toConvItem ++
    messageConv output

/-- A concrete argument parser for examples: every string parses to
itself. -/
def idParse : String → Except String String := fun s => Except.ok s

/-- A tool that echoes its parsed argument. -/
def echoTool : Tool String := ⟨fun s => Except.ok s⟩

/-- A tool that always raises. -/
def boomTool : Tool String := ⟨fun _ => Except.error "boom"⟩

/-- A concrete registry with an echoing tool and a raising tool. -/
def demoMapping : List (String × Tool String) :=
  [("echo", echoTool), ("boom", boomTool)]

/-- A concrete response output: a reasoning item, a registered call, an
unregistered call, a failing call, and a message. -/
def demoOutput : List ResponseItem :=
  [ResponseItem.reasoning "R",
   ResponseItem.functionCall "echo" "c1" "hi",
   ResponseItem.functionCall "mystery" "c2" "x",
   ResponseItem.functionCall "boom" "c3" "y",
   ResponseItem.message "M"]

/-- A concrete response output with two registered calls, for order
checks. -/
def c5Output : List ResponseItem :=
  [ResponseItem.reasoning "R",
   ResponseItem.functionCall "echo" "c1" "a1",
   ResponseItem.functionCall "echo" "c2" "a2",
   ResponseItem.message "M"]

/-- An endpoint that requests a tool call on every round. -/
def alwaysCallsOracle : Oracle String :=
  fun _ => Except.ok [ResponseItem.functionCall "echo" "c1" "hi"]

/-- An endpoint that immediately answers with a message. -/
def pongOracle : Oracle String :=
  fun _ => Except.ok [ResponseItem.message "pong"]

/-- An endpoint whose transport always fails. -/
def downOracle : Oracle String :=
  fun _ => Except.error (ApiError.transport "connection refused")

/-- A response output holding both a tool call and a message. -/
def c10Output : List ResponseItem :=
  [ResponseItem.functionCall "echo" "c1" "hi",
   ResponseItem.message "interim note"]

/-- An endpoint that always returns `c10Output`. -/
def c10Oracle : Oracle String := fun _ => Except.ok c10Output

theorem invoke_callIds {α : Type} (parse : String → Except String α)
    (tool_mapping : List (String × Tool α)) :
    ∀ output : List ResponseItem,
      (invoke_functions_from_response parse tool_mapping output).map
          FunctionCallOutput.call_id
        = (functionCallsOf output).map ResponseItem.callId := by
  intro output
  induction output with
  | nil => rfl
  | cons item rest ih =>
    cases item <;>
      simp [invoke_functions_from_response, functionCallsOf,
        ResponseItem.isFunctionCall, ResponseItem.callId, List.filter_cons, ih]

/-- C2: the results produced by `invoke_functions_from_response` are in
number equal to the `function_call` requests of the response, their
call_ids are exactly the requests' call_ids in order, and — the request
call_ids being distinct — every result's call_id matches exactly one
request and every request's call_id matches exactly one result. -/
theorem execute_pending_tool_calls_bijective {α : Type}
    (parse : String → Except String α) (tool_mapping : List (String × Tool α))
    (output : List ResponseItem)
    (h : (List.map ResponseItem.callId (functionCallsOf output)).Nodup) :
    (invoke_functions_from_response parse tool_mapping output).length
      = (functionCallsOf output).length
    ∧ (invoke_functions_from_response parse tool_mapping output).map
        FunctionCallOutput.call_id
      = (functionCallsOf output).map ResponseItem.callId
    ∧ (∀ r ∈ invoke_functions_from_response parse tool_mapping output,
        ((functionCallsOf output).map ResponseItem.callId).count r.call_id = 1)
    ∧ (∀ q ∈ functionCallsOf output,
        ((invoke_functions_from_response parse tool_mapping output).map
          FunctionCallOutput.call_id).count q.callId = 1) := by
  have hmap := invoke_callIds parse tool_mapping output
  refine ⟨?_, hmap, ?_, ?_⟩
  · have := congrArg List.length hmap
    simpa using this
  · intro r hr
    have : r.call_id ∈ (functionCallsOf output).map ResponseItem.callId := by
      rw [← hmap]; exact List.mem_map_of_mem _ hr
    exact List.count_eq_one_of_mem h this
  · intro q hq
    rw [hmap]
    exact List.count_eq_one_of_mem h (List.mem_map_of_mem _ hq)

theorem invoke_eq_map {α : Type} (parse : String → Except String α)
    (tool_mapping : List (String × Tool α)) :
    ∀ output : List ResponseItem,
      invoke_functions_from_response parse tool_mapping output
        = (functionCallsOf output).map (fun q =>
            ⟨q.callId, invokeItemOutput parse tool_mapping q.nameOf q.argsOf⟩) := by
  intro output
  induction output with
  | nil => rfl
  | cons item rest ih =>
    cases item <;>
      simp [invoke_functions_from_response, functionCallsOf,
        ResponseItem.isFunctionCall, ResponseItem.callId, ResponseItem.nameOf,
        ResponseItem.argsOf, List.filter_cons, ih]

/-- C3: a `function_call` whose tool name is unregistered still yields a
`function_call_output` for its call_id, whose output is the diagnostic
no-tool string, and the round's request list is nonempty so the loop's
break test fails and the conversation continues. -/
theorem missing_tool_yields_diagnostic {α : Type}
    (parse : String → Except String α) (tool_mapping : List (String × Tool α))
    (output : List ResponseItem) (name cid args : String)
    (hmem : ResponseItem.functionCall name cid args ∈ output)
    (habs : lookupTool tool_mapping name = none) :
    (⟨cid, errNoTool name⟩ : FunctionCallOutput)
        ∈ invoke_functions_from_response parse tool_mapping output
    ∧ (functionCallsOf output).isEmpty = false := by
  have h2 : ResponseItem.functionCall name cid args ∈ functionCallsOf output :=
    List.mem_filter.mpr ⟨hmem, rfl⟩
  constructor
  · rw [invoke_eq_map]
    refine List.mem_map.mpr ⟨ResponseItem.functionCall name cid args, h2, ?_⟩
    simp [ResponseItem.callId, ResponseItem.nameOf, ResponseItem.argsOf,
      invokeItemOutput, habs]
  · cases hfc : functionCallsOf output with
    | nil => rw [hfc] at h2; cases h2
    | cons a l => rfl

/-- C4: a registered tool whose invocation fails (the `try` block around
`json.loads` and the tool body raises, modelled by `Except.error e`)
never propagates: the request still yields a `function_call_output` for
its call_id whose output is the diagnostic execution-error string. -/
theorem failing_tool_yields_diagnostic {α : Type}
    (parse : String → Except String α) (tool_mapping : List (String × Tool α))
    (output : List ResponseItem) (name cid args e : String) (tool : Tool α)
    (hmem : ResponseItem.functionCall name cid args ∈ output)
    (hfind : lookupTool tool_mapping name = some tool)
    (hfail : Except.bind (parse args) tool.run = Except.error e) :
    (⟨cid, errExec name e⟩ : FunctionCallOutput)
        ∈ invoke_functions_from_response parse tool_mapping output := by
  have h2 : ResponseItem.functionCall name cid args ∈ functionCallsOf output :=
    List.mem_filter.mpr ⟨hmem, rfl⟩
  rw [invoke_eq_map]
  refine List.mem_map.mpr ⟨ResponseItem.functionCall name cid args, h2, ?_⟩
  simp [ResponseItem.callId, ResponseItem.nameOf, ResponseItem.argsOf,
    invokeItemOutput, hfind, hfail]

/-- C7: the tool invocations are performed sequentially in request
order: the trace equals one invocation per registered, parseable
request in exactly the order the requests appear in the response, and
it composes sequentially — every invocation of an earlier segment of
the output completes before any invocation of a later segment. -/
theorem invocations_sequential_in_request_order {α : Type}
    (parse : String → Except String α)
    (tool_mapping : List (String × Tool α)) :
    (∀ output : List ResponseItem,
      toolInvocations parse tool_mapping output
        = requestedInvocations parse tool_mapping output)
    ∧ (∀ xs ys : List ResponseItem,
      toolInvocations parse tool_mapping (xs ++ ys)
        = toolInvocations parse tool_mapping xs
          ++ toolInvocations parse tool_mapping ys) := by
  constructor
  · intro output
    induction output with
    | nil => rfl
    | cons item rest ih =>
      cases item with
      | functionCall nm cid args =>
        cases hl : lookupTool tool_mapping nm with
        | some tool =>
          cases hp : parse args with
          | ok a =>
            simp [toolInvocations, requestedInvocations, invokeItemTrace,
              List.filterMap_cons, hl, hp, Except.toOption, ih]
          | error msg =>
            simp [toolInvocations, requestedInvocations, invokeItemTrace,
              List.filterMap_cons, hl, hp, Except.toOption, ih]
        | none =>
          simp [toolInvocations, requestedInvocations, invokeItemTrace,
            List.filterMap_cons, hl, ih]
      | reasoning s =>
        simp [toolInvocations, requestedInvocations, List.filterMap_cons, ih]
      | message t =>
        simp [toolInvocations, requestedInvocations, List.filterMap_cons, ih]
  · intro xs ys
    induction xs with
    | nil => rfl
    | cons item rest ih =>
      cases item <;> simp [toolInvocations, ih]

theorem LoopOutcome.conversationOf_addCall (o : LoopOutcome) :
    o.addCall.conversationOf = o.conversationOf := by
  cases o <;> rfl

theorem LoopOutcome.isOutOfFuel_addCall (o : LoopOutcome) :
    o.addCall.isOutOfFuel = o.isOutOfFuel := by
  cases o <;> rfl

theorem if_isEmpty_eq (l : List ConvItem) :
    (if l.isEmpty then ([] : List ConvItem) else l) = l := by
  cases l <;> simp

theorem roundItems_eq {α : Type} (parse : String → Except String α)
    (tool_mapping : List (String × Tool α)) (output : List ResponseItem) :
    roundItems parse tool_mapping output
      = reasoningConv output
        ++ interleavePairs ((functionCallConv output).zip
            ((invoke_functions_from_response parse tool_mapping output).map
              FunctionCallOutput.toConvItem))
        ++ messageConv output := by
  simp only [roundItems, if_isEmpty_eq]
  cases hfc : (functionCallConv output).isEmpty with
  | true =>
    have hnil : functionCallConv output = [] := by
      cases h : functionCallConv output with
      | nil => rfl
      | cons a l => rw [h] at hfc; cases hfc
    simp [hnil, interleavePairs]
  | false => simp [hfc]

/-- C6: when the endpoint's response contains no function calls the loop
terminates on that round after exactly one endpoint call — whatever fuel
remains — appending the round's reasoning items and assistant messages
and yielding the concatenated assistant text. -/
theorem loop_terminates_without_tool_calls {α : Type}
    (parse : String → Except String α) (tool_mapping : List (String × Tool α))
    (oracle : Oracle α) (fuel : Nat) (conv : List ConvItem)
    (output : List ResponseItem)
    (hok : oracle conv = Except.ok output)
    (hfc : functionCallsOf output = []) :
    responseLoop parse tool_mapping oracle (fuel + 1) conv
      = LoopOutcome.done (conv ++ roundItems parse tool_mapping output)
          (outputText output) 1
    ∧ roundItems parse tool_mapping output
        = reasoningConv output ++ messageConv output := by
  constructor
  · simp [responseLoop, hok, hfc]
  · rw [roundItems_eq]
    simp [functionCallConv, hfc, interleavePairs]

/-- C8: an error from `client.responses.create` is not caught anywhere
in the loop: it ends the loop at once after that single endpoint call,
surfaces unchanged, and the conversation is left as it was. -/
theorem api_error_propagates {α : Type}
    (parse : String → Except String α) (tool_mapping : List (String × Tool α))
    (oracle : Oracle α) (fuel : Nat) (conv : List ConvItem) (e : ApiError)
    (herr : oracle conv = Except.error e) :
    responseLoop parse tool_mapping oracle (fuel + 1) conv
      = LoopOutcome.apiError e conv 1 := by
  simp [responseLoop, herr]

/-- C10: when a response contains function calls, its assistant messages
are still appended in that same round (the round's items end with them)
and the loop goes on to another endpoint call; the break test looks only
at the function calls. -/
theorem messages_do_not_terminate_loop {α : Type}
    (parse : String → Except String α) (tool_mapping : List (String × Tool α))
    (oracle : Oracle α) (fuel : Nat) (conv : List ConvItem)
    (output : List ResponseItem)
    (hok : oracle conv = Except.ok output)
    (hfc : (functionCallsOf output).isEmpty = false) :
    (∃ front, roundItems parse tool_mapping output
        = front ++ messageConv output)
    ∧ responseLoop parse tool_mapping oracle (fuel + 1) conv
        = (responseLoop parse tool_mapping oracle fuel
            (conv ++ roundItems parse tool_mapping output)).addCall := by
  constructor
  · refine ⟨reasoningConv output
      ++ interleavePairs ((functionCallConv output).zip
          ((invoke_functions_from_response parse tool_mapping output).map
            FunctionCallOutput.toConvItem)), ?_⟩
    rw [roundItems_eq, List.append_assoc]
  · simp [responseLoop, hok, hfc]

theorem responseLoop_extends {α : Type} (parse : String → Except String α)
    (tool_mapping : List (String × Tool α)) (oracle : Oracle α) :
    ∀ (fuel : Nat) (conv : List ConvItem), ∃ tail,
      (responseLoop parse tool_mapping oracle fuel conv).conversationOf
        = conv ++ tail := by
  intro fuel
  induction fuel with
  | zero =>
    intro conv
    exact ⟨[], by simp [responseLoop, LoopOutcome.conversationOf]⟩
  | succ fuel ih =>
    intro conv
    cases horacle : oracle conv with
    | error e =>
      exact ⟨[], by simp [responseLoop, horacle, LoopOutcome.conversationOf]⟩
    | ok output =>
      cases hfc : (functionCallsOf output).isEmpty with
      | true =>
        exact ⟨roundItems parse tool_mapping output, by
          simp [responseLoop, horacle, hfc, LoopOutcome.conversationOf]⟩
      | false =>
        obtain ⟨tail, htail⟩ := ih (conv ++ roundItems parse tool_mapping output)
        refine ⟨roundItems parse tool_mapping output ++ tail, ?_⟩
        simp [responseLoop, horacle, hfc, LoopOutcome.conversationOf_addCall,
          htail]

theorem runSession_extends {α : Type} (parse : String → Except String α)
    (tool_mapping : List (String × Tool α)) (oracle : Oracle α) (fuel : Nat) :
    ∀ (msgs : List String) (conv : List ConvItem), ∃ tail,
      runSession parse tool_mapping oracle fuel conv msgs = conv ++ tail := by
  intro msgs
  induction msgs with
  | nil => intro conv; exact ⟨[], by simp [runSession]⟩
  | cons msg rest ih =>
    intro conv
    obtain ⟨t1, ht1⟩ := responseLoop_extends parse tool_mapping oracle fuel
      (conv ++ [ConvItem.userMessage msg])
    cases hrun : responseLoop parse tool_mapping oracle fuel
        (conv ++ [ConvItem.userMessage msg]) with
    | done conv' text n =>
      obtain ⟨t2, ht2⟩ := ih conv'
      refine ⟨[ConvItem.userMessage msg] ++ t1 ++ t2, ?_⟩
      rw [hrun] at ht1
      simp only [LoopOutcome.conversationOf] at ht1
      simp only [runSession, hrun]
      rw [ht2, ht1]
      simp
    | apiError e conv' n =>
      refine ⟨[ConvItem.userMessage msg] ++ t1, ?_⟩
      rw [hrun] at ht1
      simp only [LoopOutcome.conversationOf] at ht1
      simp [runSession, hrun, ht1]
    | outOfFuel conv' n =>
      refine ⟨[ConvItem.userMessage msg] ++ t1, ?_⟩
      rw [hrun] at ht1
      simp only [LoopOutcome.conversationOf] at ht1
      simp [runSession, hrun, ht1]

/-- C9: the orchestrator only appends: from any state, the conversation
held in the loop's outcome extends the starting conversation, and over a
whole session of user messages the final conversation extends every
earlier one — items are never reordered or removed. -/
theorem conversation_append_only {α : Type} (parse : String → Except String α)
    (tool_mapping : List (String × Tool α)) (oracle : Oracle α) :
    (∀ (fuel : Nat) (conv : List ConvItem), ∃ tail,
      (responseLoop parse tool_mapping oracle fuel conv).conversationOf
        = conv ++ tail)
    ∧ (∀ (fuel : Nat) (msgs : List String) (conv : List ConvItem), ∃ tail,
      runSession parse tool_mapping oracle fuel conv msgs = conv ++ tail) :=
  ⟨responseLoop_extends parse tool_mapping oracle,
   fun fuel => runSession_extends parse tool_mapping oracle fuel⟩

theorem alwaysCalls_never_stops :
    ∀ (fuel : Nat) (conv : List ConvItem),
      (responseLoop idParse demoMapping alwaysCallsOracle fuel conv).isOutOfFuel
        = true := by
  intro fuel
  induction fuel with
  | zero => intro conv; rfl
  | succ fuel ih =>
    intro conv
    simp [responseLoop, alwaysCallsOracle, functionCallsOf,
      ResponseItem.isFunctionCall, LoopOutcome.isOutOfFuel_addCall, ih]

/-- C1: the notebook's loop has no round bound at all: with an endpoint
that requests a tool call on every round, the loop is still running
under every finite round budget — it loops indefinitely and never fails
with any runaway-loop error. -/
theorem drive_conversation_unbounded_counterexample :
    loopsForever idParse demoMapping alwaysCallsOracle
      [ConvItem.userMessage "ping"] :=
  fun fuel => alwaysCalls_never_stops fuel [ConvItem.userMessage "ping"]

/-- C1 (amended): the loop is a bare `while True` with no `max_rounds`
guard and no `RunawayLoopError`; an endpoint that always requests tool
calls makes it loop forever.  What does hold is that its outcome is
stable: if the loop has terminated within `f1` rounds, running it with
any larger round budget `f2` changes nothing. -/
theorem responseLoop_outcome_stable {α : Type}
    (parse : String → Except String α) (tool_mapping : List (String × Tool α))
    (oracle : Oracle α) :
    ∀ (f1 f2 : Nat) (conv : List ConvItem), f1 ≤ f2 →
      (responseLoop parse tool_mapping oracle f1 conv).isOutOfFuel = false →
      responseLoop parse tool_mapping oracle f2 conv
        = responseLoop parse tool_mapping oracle f1 conv := by
  intro f1
  induction f1 with
  | zero =>
    intro f2 conv _ hrun
    simp [responseLoop, LoopOutcome.isOutOfFuel] at hrun
  | succ f1 ih =>
    intro f2 conv hle hrun
    cases f2 with
    | zero => omega
    | succ f2 =>
      cases horacle : oracle conv with
      | error e => simp [responseLoop, horacle]
      | ok output =>
        cases hfc : (functionCallsOf output).isEmpty with
        | true => simp [responseLoop, horacle, hfc]
        | false =>
          have hrun' : (responseLoop parse tool_mapping oracle f1
              (conv ++ roundItems parse tool_mapping output)).isOutOfFuel
                = false := by
            simp only [responseLoop] at hrun
            rw [horacle] at hrun
            simpa [hfc, LoopOutcome.isOutOfFuel_addCall] using hrun
          have heq := ih f2 (conv ++ roundItems parse tool_mapping output)
            (Nat.le_of_succ_le_succ hle) hrun'
          simp [responseLoop, horacle, hfc, heq]

/-- C1 (amended) witness: an endpoint that answers immediately makes the
loop terminate within one round, and a budget of two rounds yields the
same outcome. -/
theorem responseLoop_outcome_stable_witness :
    (1 ≤ 2
      ∧ (responseLoop idParse demoMapping pongOracle 1
          [ConvItem.userMessage "ping"]).isOutOfFuel = false)
    ∧ responseLoop idParse demoMapping pongOracle 2
        [ConvItem.userMessage "ping"]
      = responseLoop idParse demoMapping pongOracle 1
          [ConvItem.userMessage "ping"] :=
  ⟨⟨by decide, rfl⟩,
    responseLoop_outcome_stable idParse demoMapping pongOracle 1 2
      [ConvItem.userMessage "ping"] (by decide) rfl⟩

/-- C5: the claimed round order — all requests, then all paired results —
is not what the loop appends.  With two calls in one round the appended
items interleave each request with its result, so the round differs from
the all-requests-then-all-results order. -/
theorem round_order_counterexample :
    roundItems idParse demoMapping c5Output
      ≠ specRoundOrder idParse demoMapping c5Output := by
  decide

/-- C5 (amended): within a round the loop appends every reasoning step
first, then the request/result pairs interleaved — each request
immediately followed by its paired result, pairs in request order —
then the assistant messages; the requests and results zipped this way
are equal in number.  In particular every reasoning step of the round
precedes every tool result of the round. -/
theorem round_order_interleaved {α : Type} (parse : String → Except String α)
    (tool_mapping : List (String × Tool α)) (output : List ResponseItem) :
    roundItems parse tool_mapping output
      = reasoningConv output
        ++ interleavePairs ((functionCallConv output).zip
            ((invoke_functions_from_response parse tool_mapping output).map
              FunctionCallOutput.toConvItem))
        ++ messageConv output
    ∧ (functionCallConv output).length
        = ((invoke_functions_from_response parse tool_mapping output).map
            FunctionCallOutput.toConvItem).length := by
  refine ⟨roundItems_eq parse tool_mapping output, ?_⟩
  have h := congrArg List.length (invoke_callIds parse tool_mapping output)
  simp only [List.length_map] at h
  simp [functionCallConv, h]

/-- C2 witness: on a concrete response with three distinct call_ids the
results pair bijectively with the requests. -/
theorem execute_pending_tool_calls_bijective_witness :
    (List.map ResponseItem.callId (functionCallsOf demoOutput)).Nodup
    ∧ ((invoke_functions_from_response idParse demoMapping demoOutput).length
        = (functionCallsOf demoOutput).length
      ∧ (invoke_functions_from_response idParse demoMapping demoOutput).map
          FunctionCallOutput.call_id
        = (functionCallsOf demoOutput).map ResponseItem.callId
      ∧ (∀ r ∈ invoke_functions_from_response idParse demoMapping demoOutput,
          ((functionCallsOf demoOutput).map ResponseItem.callId).count
            r.call_id = 1)
      ∧ (∀ q ∈ functionCallsOf demoOutput,
          ((invoke_functions_from_response idParse demoMapping demoOutput).map
            FunctionCallOutput.call_id).count q.callId = 1)) :=
  ⟨by decide,
    execute_pending_tool_calls_bijective idParse demoMapping demoOutput
      (by decide)⟩

/-- C3 witness: the unregistered tool `mystery` yields the no-tool
diagnostic result and the loop's break test fails. -/
theorem missing_tool_yields_diagnostic_witness :
    (ResponseItem.functionCall "mystery" "c2" "x" ∈ demoOutput
      ∧ lookupTool demoMapping "mystery" = none)
    ∧ ((⟨"c2", errNoTool "mystery"⟩ : FunctionCallOutput)
          ∈ invoke_functions_from_response idParse demoMapping demoOutput
      ∧ (functionCallsOf demoOutput).isEmpty = false) :=
  ⟨⟨by decide, rfl⟩,
    missing_tool_yields_diagnostic idParse demoMapping demoOutput
      "mystery" "c2" "x" (by decide) rfl⟩

/-- C4 witness: the registered tool `boom` raises and still yields a
diagnostic result for its call_id. -/
theorem failing_tool_yields_diagnostic_witness :
    (ResponseItem.functionCall "boom" "c3" "y" ∈ demoOutput
      ∧ lookupTool demoMapping "boom" = some boomTool
      ∧ Except.bind (idParse "y") boomTool.run = Except.error "boom")
    ∧ (⟨"c3", errExec "boom" "boom"⟩ : FunctionCallOutput)
        ∈ invoke_functions_from_response idParse demoMapping demoOutput :=
  ⟨⟨by decide, rfl, rfl⟩,
    failing_tool_yields_diagnostic idParse demoMapping demoOutput
      "boom" "c3" "y" "boom" boomTool (by decide) rfl rfl⟩

/-- C6 witness: a mocked endpoint answering `pong` with no tool calls
terminates the loop in one round. -/
theorem loop_terminates_without_tool_calls_witness :
    (pongOracle [ConvItem.userMessage "ping"]
        = Except.ok [ResponseItem.message "pong"]
      ∧ functionCallsOf [ResponseItem.message "pong"] = [])
    ∧ (responseLoop idParse demoMapping pongOracle 1
          [ConvItem.userMessage "ping"]
        = LoopOutcome.done
            ([ConvItem.userMessage "ping"]
              ++ roundItems idParse demoMapping [ResponseItem.message "pong"])
            (outputText [ResponseItem.message "pong"]) 1
      ∧ roundItems idParse demoMapping [ResponseItem.message "pong"]
          = reasoningConv [ResponseItem.message "pong"]
            ++ messageConv [ResponseItem.message "pong"]) :=
  ⟨⟨rfl, rfl⟩,
    loop_terminates_without_tool_calls idParse demoMapping pongOracle 0
      [ConvItem.userMessage "ping"] [ResponseItem.message "pong"] rfl rfl⟩

/-- C8 witness: a transport failure ends the loop at once and surfaces
unchanged. -/
theorem api_error_propagates_witness :
    downOracle [ConvItem.userMessage "ping"]
        = Except.error (ApiError.transport "connection refused")
    ∧ responseLoop idParse demoMapping downOracle 1
        [ConvItem.userMessage "ping"]
      = LoopOutcome.apiError (ApiError.transport "connection refused")
          [ConvItem.userMessage "ping"] 1 :=
  ⟨rfl,
    api_error_propagates idParse demoMapping downOracle 0
      [ConvItem.userMessage "ping"] (ApiError.transport "connection refused")
      rfl⟩

/-- C10 witness: a response with both a tool call and a message appends
the message this round and the loop continues. -/
theorem messages_do_not_terminate_loop_witness :
    (c10Oracle [ConvItem.userMessage "ping"] = Except.ok c10Output
      ∧ (functionCallsOf c10Output).isEmpty = false)
    ∧ ((∃ front, roundItems idParse demoMapping c10Output
          = front ++ messageConv c10Output)
      ∧ responseLoop idParse demoMapping c10Oracle 1
            [ConvItem.userMessage "ping"]
          = (responseLoop idParse demoMapping c10Oracle 0
              ([ConvItem.userMessage "ping"]
                ++ roundItems idParse demoMapping c10Output)).addCall) :=
  ⟨⟨rfl, rfl⟩,
    messages_do_not_terminate_loop idParse demoMapping c10Oracle 0
      [ConvItem.userMessage "ping"] c10Output rfl rfl⟩
